import Mathlib

/-!
Shallow embedding of the gphoto2-rs wrapper (src/camera.rs, src/helper.rs)
and proofs about its event decoding, configuration writes, logging hook,
lock recovery, text decoding and timeout conversion.

Machine integers are modelled as Nat/Int with explicit reductions modulo
powers of two where the code truncates; fallible operations return
Except; driver calls are modelled by their numeric status (negative =
error, as the native API defines) and, where the code consults the
driver, by an explicit driver function argument.
-/

namespace Gphoto2

/-- Modelled from the spec: the structured error taxonomy of the error
module, which is not under src/ (DriverError carries the negative native
status code; TypeMismatch is the wrong-root-kind error of the whole-tree
write). -/
inductive Error where
  | DriverError (code : Int)
  | NotFound
  | NotSupported
  | WrongWidgetType
  | InvalidChoice
  | OutOfRange
  | TypeMismatch
deriving DecidableEq, Repr

/-- Modelled from the spec: the status check of the try_gp_internal macro,
which lives outside src/ — a negative native status becomes a structured
DriverError, zero or positive is success. -/
def try_gp (status : Int) : Except Error Unit :=
  if status < 0 then Except.error (Error.DriverError status) else Except.ok ()

/-- Modelled from the spec: CameraFilePath (file.rs is not under src/) is
an immutable value holding the raw folder and name character arrays of
the native file-path record; produced by capture or by events. -/
structure CameraFilePath where
  folder : List Nat
  name : List Nat
deriving DecidableEq, Repr

/-- Event from camera (the CameraEvent enum of src/camera.rs). -/
inductive CameraEvent where
  | Unknown
  | Timeout
  | NewFile (path : CameraFilePath)
  | FileChanged (path : CameraFilePath)
  | NewFolder (path : CameraFilePath)
  | CaptureComplete
deriving DecidableEq, Repr

/-- Modelled from the spec: the driver's event type tag
(libgphoto2_sys::CameraEventType, declared outside src/), a closed
enumeration of exactly the six tags matched in Camera::wait_event. -/
inductive CameraEventType where
  | GP_EVENT_UNKNOWN
  | GP_EVENT_TIMEOUT
  | GP_EVENT_FILE_ADDED
  | GP_EVENT_FOLDER_ADDED
  | GP_EVENT_FILE_CHANGED
  | GP_EVENT_CAPTURE_COMPLETE
deriving DecidableEq, Repr

/-- Modelled from the spec: the driver hands the event tag across the C
boundary as a numeric value; only the six declared values 0..5
reinterpret as a variant of the closed enum, any other value has no
corresponding variant (none). -/
def cameraEventTypeOfTag (tag : Int) : Option CameraEventType :=
  if tag = 0 then some CameraEventType.GP_EVENT_UNKNOWN
  else if tag = 1 then some CameraEventType.GP_EVENT_TIMEOUT
  else if tag = 2 then some CameraEventType.GP_EVENT_FILE_ADDED
  else if tag = 3 then some CameraEventType.GP_EVENT_FOLDER_ADDED
  else if tag = 4 then some CameraEventType.GP_EVENT_FILE_CHANGED
  else if tag = 5 then some CameraEventType.GP_EVENT_CAPTURE_COMPLETE
  else none

/-- The match expression of Camera::wait_event (src/camera.rs): a tag and
the driver's event payload (reinterpreted as a file-path record where the
tag demands it) become one CameraEvent. -/
def decodeEvent (t : CameraEventType) (payload : CameraFilePath) : CameraEvent :=
  match t with
  | CameraEventType.GP_EVENT_UNKNOWN => CameraEvent.Unknown
  | CameraEventType.GP_EVENT_TIMEOUT => CameraEvent.Timeout
  | CameraEventType.GP_EVENT_FILE_ADDED =>
      CameraEvent.NewFile { folder := payload.folder, name := payload.name }
  | CameraEventType.GP_EVENT_FOLDER_ADDED =>
      CameraEvent.NewFolder { folder := payload.folder, name := payload.name }
  | CameraEventType.GP_EVENT_FILE_CHANGED =>
      CameraEvent.FileChanged { folder := payload.folder, name := payload.name }
  | CameraEventType.GP_EVENT_CAPTURE_COMPLETE => CameraEvent.CaptureComplete

/-- Camera::wait_event (src/camera.rs) after the driver call returned:
the native status is checked first (try_gp_internal), then the tag and
payload are decoded by the match expression. -/
def wait_event (status : Int) (t : CameraEventType) (payload : CameraFilePath) :
    Except Error CameraEvent :=
  match try_gp status with
  | Except.error e => Except.error e
  | Except.ok _ => Except.ok (decodeEvent t payload)

/-- Camera::wait_event seen from the C boundary: the driver writes a raw
numeric tag; a value outside the declared enum has no variant and hence
no match arm in the source (none — the source defines no result there). -/
def wait_event_raw (status : Int) (tag : Int) (payload : CameraFilePath) :
    Option (Except Error CameraEvent) :=
  match cameraEventTypeOfTag tag with
  | some t => some (wait_event status t payload)
  | none => none

/-- Modelled from the spec: the closed set of widget kinds of the
configuration tree (widget.rs is not under src/). -/
inductive WidgetType where
  | Window
  | Section
  | Text
  | Range
  | Toggle
  | Radio
  | Menu
  | Date
  | Button
deriving DecidableEq, Repr

/-- Modelled from the spec: a configuration tree node (widget.rs is not
under src/) carries its unique name and its declared kind; only these two
attributes are consulted by the camera.rs write paths. -/
structure Widget where
  name : List Nat
  widgetType : WidgetType
deriving DecidableEq, Repr

/-- Camera::set_all_config (src/camera.rs): a non-Window root is rejected
before any driver call; otherwise gp_camera_set_config is invoked and its
status checked.  The driver is passed as a function from the widget to
its returned status so that invocation (or not) is observable. -/
def set_all_config (config : Widget) (driver : Widget → Int) : Except Error Unit :=
  if config.widgetType = WidgetType.Window then
    match try_gp (driver config) with
    | Except.error e => Except.error e
    | Except.ok _ => Except.ok ()
  else Except.error Error.TypeMismatch

/-- Camera::set_config (src/camera.rs): gp_camera_set_single_config is
invoked with the node's own name as the key; the driver is passed as a
function from the key sent to its returned status. -/
def set_config (config : Widget) (driver : List Nat → Int) : Except Error Unit :=
  match try_gp (driver config.name) with
  | Except.error e => Except.error e
  | Except.ok _ => Except.ok ()

/-- Process-global state relevant to hook_gp_log (src/helper.rs): whether
the HOOK_LOG_FUNCTION Once has fired, and how many times
gp_log_add_func has been invoked. -/
structure ProcessLogState where
  hooked : Bool
  gpLogAddFuncCalls : Nat
deriving DecidableEq, Repr

/-- The state of a fresh process: the Once has not fired and the driver's
add-log-function entry point has never been invoked. -/
def processStart : ProcessLogState :=
  { hooked := false, gpLogAddFuncCalls := 0 }

/-- hook_gp_log (src/helper.rs): HOOK_LOG_FUNCTION.call_once runs its
closure — which invokes gp_log_add_func — only if it has not already
fired. -/
def hook_gp_log (s : ProcessLogState) : ProcessLogState :=
  if s.hooked then s
  else { hooked := true, gpLogAddFuncCalls := s.gpLogAddFuncCalls + 1 }

/-- Modelled from the spec: std's PoisonError, as consumed by
libtool_lock — a poisoned acquisition still carries the guard, extracted
by into_inner. -/
structure PoisonError (α : Type) where
  inner : α
deriving DecidableEq, Repr

/-- Modelled from the spec: the two outcomes of Mutex::lock — a guard, or
a PoisonError still holding the guard. -/
inductive LockResult (α : Type) where
  | ok (guard : α)
  | poisoned (err : PoisonError α)
deriving DecidableEq, Repr

/-- libtool_lock (src/helper.rs): both arms of the match on
LIBTOOL_LOCK.lock() yield the guard — the poisoned arm recovers it with
into_inner instead of panicking. -/
def libtool_lock {α : Type} (r : LockResult α) : α :=
  match r with
  | LockResult.ok guard => guard
  | LockResult.poisoned err => err.inner

/-- Modelled from the spec: the driver's log severities
(libgphoto2_sys::GPLogLevel, declared outside src/). -/
inductive GPLogLevel where
  | GP_LOG_ERROR
  | GP_LOG_VERBOSE
  | GP_LOG_DEBUG
  | GP_LOG_DATA
deriving DecidableEq, Repr

/-- Modelled from the spec: the host logging facade's levels (the log
crate, an external collaborator). -/
inductive LogLevel where
  | Error
  | Warn
  | Info
  | Debug
  | Trace
deriving DecidableEq, Repr

/-- The replacement character U+FFFD substituted by the lossy UTF-8
decode. -/
def repl : Char := Char.ofNat 0xFFFD

/-- Continuation byte test of the UTF-8 decoder: 0x80..0xBF. -/
def isCont (b : Nat) : Bool := 0x80 ≤ b && b ≤ 0xBF

/-- Admissible second byte of a three-byte UTF-8 sequence, per lead byte
(0xE0 forbids overlong encodings, 0xED forbids surrogates). -/
def utf8SecondOk3 (b b1 : Nat) : Bool :=
  if b = 0xE0 then 0xA0 ≤ b1 && b1 ≤ 0xBF
  else if b = 0xED then 0x80 ≤ b1 && b1 ≤ 0x9F
  else isCont b1

/-- Admissible second byte of a four-byte UTF-8 sequence, per lead byte
(0xF0 forbids overlong encodings, 0xF4 caps at U+10FFFF). -/
def utf8SecondOk4 (b b1 : Nat) : Bool :=
  if b = 0xF0 then 0x90 ≤ b1 && b1 ≤ 0xBF
  else if b = 0xF4 then 0x80 ≤ b1 && b1 ≤ 0x8F
  else isCont b1

/-- Modelled from the spec: std's String::from_utf8_lossy as called by
char_slice_to_cow — each maximal invalid subpart of the byte stream is
replaced by one U+FFFD (an incomplete sequence at end of input yields a
single U+FFFD), valid sequences decode to their scalar value. -/
def utf8Lossy : List Nat → List Char
  | [] => []
  | b :: rest =>
    if b < 0x80 then Char.ofNat b :: utf8Lossy rest
    else if b < 0xC2 then repl :: utf8Lossy rest
    else if b ≤ 0xDF then
      match rest with
      | [] => [repl]
      | b1 :: rest1 =>
        if isCont b1 then Char.ofNat ((b - 0xC0) * 0x40 + (b1 - 0x80)) :: utf8Lossy rest1
        else repl :: utf8Lossy (b1 :: rest1)
    else if b ≤ 0xEF then
      match rest with
      | [] => [repl]
      | b1 :: rest1 =>
        if utf8SecondOk3 b b1 then
          match rest1 with
          | [] => [repl]
          | b2 :: rest2 =>
            if isCont b2 then
              Char.ofNat (((b - 0xE0) * 0x40 + (b1 - 0x80)) * 0x40 + (b2 - 0x80)) ::
                utf8Lossy rest2
            else repl :: utf8Lossy (b2 :: rest2)
        else repl :: utf8Lossy (b1 :: rest1)
    else if b ≤ 0xF4 then
      match rest with
      | [] => [repl]
      | b1 :: rest1 =>
        if utf8SecondOk4 b b1 then
          match rest1 with
          | [] => [repl]
          | b2 :: rest2 =>
            if isCont b2 then
              match rest2 with
              | [] => [repl]
              | b3 :: rest3 =>
                if isCont b3 then
                  Char.ofNat
                    ((((b - 0xF0) * 0x40 + (b1 - 0x80)) * 0x40 + (b2 - 0x80)) * 0x40 +
                      (b3 - 0x80)) :: utf8Lossy rest3
                else repl :: utf8Lossy (b3 :: rest3)
            else repl :: utf8Lossy (b2 :: rest2)
        else repl :: utf8Lossy (b1 :: rest1)
    else repl :: utf8Lossy rest

/-- Strict UTF-8 decoder with the same sequence structure as utf8Lossy:
none wherever the lossy decode would substitute a replacement character.
It is the specification-side notion of a byte list being valid UTF-8. -/
def utf8Decode : List Nat → Option (List Char)
  | [] => some []
  | b :: rest =>
    if b < 0x80 then (utf8Decode rest).map (fun cs => Char.ofNat b :: cs)
    else if b < 0xC2 then none
    else if b ≤ 0xDF then
      match rest with
      | [] => none
      | b1 :: rest1 =>
        if isCont b1 then
          (utf8Decode rest1).map (fun cs => Char.ofNat ((b - 0xC0) * 0x40 + (b1 - 0x80)) :: cs)
        else none
    else if b ≤ 0xEF then
      match rest with
      | [] => none
      | b1 :: rest1 =>
        if utf8SecondOk3 b b1 then
          match rest1 with
          | [] => none
          | b2 :: rest2 =>
            if isCont b2 then
              (utf8Decode rest2).map
                (fun cs => Char.ofNat (((b - 0xE0) * 0x40 + (b1 - 0x80)) * 0x40 + (b2 - 0x80)) :: cs)
            else none
        else none
    else if b ≤ 0xF4 then
      match rest with
      | [] => none
      | b1 :: rest1 =>
        if utf8SecondOk4 b b1 then
          match rest1 with
          | [] => none
          | b2 :: rest2 =>
            if isCont b2 then
              match rest2 with
              | [] => none
              | b3 :: rest3 =>
                if isCont b3 then
                  (utf8Decode rest3).map
                    (fun cs =>
                      Char.ofNat
                        ((((b - 0xF0) * 0x40 + (b1 - 0x80)) * 0x40 + (b2 - 0x80)) * 0x40 +
                          (b3 - 0x80)) :: cs)
                else none
            else none
        else none
    else none

/-- UTF-8 encoding of one scalar value, as std's char::encode_utf8. -/
def encodeChar (c : Char) : List Nat :=
  let n := c.toNat
  if n < 0x80 then [n]
  else if n < 0x800 then [0xC0 + n / 0x40, 0x80 + n % 0x40]
  else if n < 0x10000 then [0xE0 + n / 0x1000, 0x80 + n / 0x40 % 0x40, 0x80 + n % 0x40]
  else [0xF0 + n / 0x40000, 0x80 + n / 0x1000 % 0x40, 0x80 + n / 0x40 % 0x40, 0x80 + n % 0x40]

/-- UTF-8 encoding of a character sequence. -/
def utf8Encode : List Char → List Nat
  | [] => []
  | c :: cs => encodeChar c ++ utf8Encode cs

/-- char_slice_to_cow (src/helper.rs): CStr::from_ptr reads the char
array up to the first NUL, to_bytes drops the NUL, and
String::from_utf8_lossy decodes leniently. -/
def char_slice_to_cow (chars : List Nat) : List Char :=
  utf8Lossy (chars.takeWhile (fun b => b != 0))

/-- chars_to_string (src/helper.rs): same NUL-terminated lossy decode,
returned as an owned string. -/
def chars_to_string (chars : List Nat) : List Char :=
  utf8Lossy (chars.takeWhile (fun b => b != 0))

/-- Modelled from the spec: camera_text_to_str (imported by src/camera.rs
but defined outside the given helper.rs) applies the NUL-terminated lossy
decode of char_slice_to_cow to the text field of the native CameraText. -/
def camera_text_to_str (text : List Nat) : List Char :=
  char_slice_to_cow text

/-- Camera::summary (src/camera.rs): the native status is checked, then
the returned text buffer is decoded leniently. -/
def summary (status : Int) (text : List Nat) : Except Error (List Char) :=
  match try_gp status with
  | Except.error e => Except.error e
  | Except.ok _ => Except.ok (camera_text_to_str text)

/-- Camera::about (src/camera.rs): same status check and lenient decode. -/
def about (status : Int) (text : List Nat) : Except Error (List Char) :=
  match try_gp status with
  | Except.error e => Except.error e
  | Except.ok _ => Except.ok (camera_text_to_str text)

/-- Camera::manual (src/camera.rs): same status check and lenient decode. -/
def manual (status : Int) (text : List Nat) : Except Error (List Char) :=
  match try_gp status with
  | Except.error e => Except.error e
  | Except.ok _ => Except.ok (camera_text_to_str text)

/-- The log_function callback of hook_gp_log (src/helper.rs): maps the
driver severity to a host log level (none models the unreachable branch
on GP_LOG_DATA), builds the target by prefixing the domain with
gphoto2::, and forwards the message. -/
def log_function (level : GPLogLevel) (domain message : List Nat) :
    Option (LogLevel × List Char × List Char) :=
  match level with
  | GPLogLevel.GP_LOG_ERROR =>
      some (LogLevel.Error, "gphoto2::".toList ++ chars_to_string domain, chars_to_string message)
  | GPLogLevel.GP_LOG_DEBUG =>
      some (LogLevel.Debug, "gphoto2::".toList ++ chars_to_string domain, chars_to_string message)
  | GPLogLevel.GP_LOG_VERBOSE =>
      some (LogLevel.Info, "gphoto2::".toList ++ chars_to_string domain, chars_to_string message)
  | GPLogLevel.GP_LOG_DATA => none

/-- Duration::as_millis of the Rust standard library: whole milliseconds,
the sub-millisecond remainder truncated by the nanosecond division. -/
def duration_as_millis (secs nanos : Nat) : Nat :=
  secs * 1000 + nanos / 1000000

/-- The as-cast from u128 to i32 in Camera::wait_event: reduce modulo
2^32 and reinterpret the low 32 bits as a two's-complement signed
value. -/
def u128_as_i32 (n : Nat) : Int :=
  if n % 4294967296 < 2147483648 then ((n % 4294967296 : Nat) : Int)
  else ((n % 4294967296 : Nat) : Int) - 4294967296

/-- The timeout argument Camera::wait_event (src/camera.rs) hands to
gp_camera_wait_for_event: duration.as_millis() as i32. -/
def wait_event_timeout_millis (secs nanos : Nat) : Int :=
  u128_as_i32 (duration_as_millis secs nanos)

/-- C1: wait_event decodes the driver's tag/payload pair by the tag
alone — GP_EVENT_FILE_ADDED yields NewFile, GP_EVENT_FOLDER_ADDED yields
NewFolder, GP_EVENT_FILE_CHANGED yields FileChanged, each carrying a
CameraFilePath whose folder and name equal the payload's fields exactly;
GP_EVENT_CAPTURE_COMPLETE yields CaptureComplete and GP_EVENT_TIMEOUT
yields Timeout with the payload never read (the result is independent of
it). -/
theorem wait_event_decodes_by_tag (status : Int) (p : CameraFilePath) (h : 0 ≤ status) :
    wait_event status CameraEventType.GP_EVENT_FILE_ADDED p =
      Except.ok (CameraEvent.NewFile { folder := p.folder, name := p.name }) ∧
    wait_event status CameraEventType.GP_EVENT_FOLDER_ADDED p =
      Except.ok (CameraEvent.NewFolder { folder := p.folder, name := p.name }) ∧
    wait_event status CameraEventType.GP_EVENT_FILE_CHANGED p =
      Except.ok (CameraEvent.FileChanged { folder := p.folder, name := p.name }) ∧
    wait_event status CameraEventType.GP_EVENT_CAPTURE_COMPLETE p =
      Except.ok CameraEvent.CaptureComplete ∧
    wait_event status CameraEventType.GP_EVENT_TIMEOUT p = Except.ok CameraEvent.Timeout ∧
    (∀ q : CameraFilePath,
      wait_event status CameraEventType.GP_EVENT_CAPTURE_COMPLETE p =
        wait_event status CameraEventType.GP_EVENT_CAPTURE_COMPLETE q ∧
      wait_event status CameraEventType.GP_EVENT_TIMEOUT p =
        wait_event status CameraEventType.GP_EVENT_TIMEOUT q) := by
  have hn : ¬ status < 0 := not_lt.mpr h
  simp [wait_event, try_gp, hn, decodeEvent]

/-- C1 witness: a concrete successful poll with tag GP_EVENT_FILE_ADDED
carries the payload's folder and name through unchanged. -/
theorem wait_event_decodes_by_tag_witness :
    wait_event 0 CameraEventType.GP_EVENT_FILE_ADDED { folder := [102], name := [110] } =
      Except.ok (CameraEvent.NewFile { folder := [102], name := [110] }) :=
  (wait_event_decodes_by_tag 0 { folder := [102], name := [110] } (by decide)).1

/-- C3: when the driver reports the timeout event with a success status,
wait_event returns Ok(Timeout) — a success value, never an error. -/
theorem wait_event_timeout_is_success (status : Int) (p : CameraFilePath) (h : 0 ≤ status) :
    wait_event status CameraEventType.GP_EVENT_TIMEOUT p = Except.ok CameraEvent.Timeout ∧
    ∀ e : Error, wait_event status CameraEventType.GP_EVENT_TIMEOUT p ≠ Except.error e := by
  have hn : ¬ status < 0 := not_lt.mpr h
  constructor
  · simp [wait_event, try_gp, hn, decodeEvent]
  · intro e
    simp [wait_event, try_gp, hn, decodeEvent]

/-- C3 witness: a concrete timeout poll succeeds with the Timeout
variant. -/
theorem wait_event_timeout_is_success_witness :
    wait_event 0 CameraEventType.GP_EVENT_TIMEOUT { folder := [], name := [] } =
      Except.ok CameraEvent.Timeout :=
  (wait_event_timeout_is_success 0 { folder := [], name := [] } (by decide)).1

/-- C4 counterexample: the raw tag value 6, which lies outside the six
declared variants, does not decode to Ok(Unknown) — the match in
wait_event has no arm for it (the embedding yields none). -/
theorem wait_event_unknown_tag_counterexample :
    wait_event_raw 0 6 { folder := [], name := [] } ≠
      some (Except.ok CameraEvent.Unknown) := by
  norm_num [wait_event_raw, cameraEventTypeOfTag]
  exact fun hcontra => Option.noConfusion hcontra

/-- C4 amended: only the declared tag value 0 (GP_EVENT_UNKNOWN) decodes
to CameraEvent::Unknown; a raw tag value outside the declared range 0..5
corresponds to no variant of the closed sys enum, so wait_event's match
defines no result for it (none) rather than mapping it to Unknown. -/
theorem wait_event_raw_unknown_only_tag_zero (tag : Int) (p : CameraFilePath) :
    (wait_event_raw 0 tag p = some (Except.ok CameraEvent.Unknown) ↔ tag = 0) ∧
    (tag < 0 ∨ 5 < tag → wait_event_raw 0 tag p = none) := by
  constructor
  · constructor
    · intro hmem
      by_contra hne
      unfold wait_event_raw cameraEventTypeOfTag at hmem
      split_ifs at hmem <;> simp_all [wait_event, try_gp, decodeEvent]
    · intro h0
      subst h0
      simp [wait_event_raw, cameraEventTypeOfTag, wait_event, try_gp, decodeEvent]
  · intro hout
    unfold wait_event_raw cameraEventTypeOfTag
    split_ifs <;> first | rfl | omega

/-- C4 amended witness: the out-of-range tag 6 yields no decoded event. -/
theorem wait_event_raw_unknown_only_tag_zero_witness :
    wait_event_raw 0 6 { folder := [], name := [] } = none :=
  (wait_event_raw_unknown_only_tag_zero 6 { folder := [], name := [] }).2 (Or.inr (by decide))

/-- C2: set_all_config with a non-Window root fails with TypeMismatch and
never consults the driver (the result is the same for every driver);
with a Window root the driver write is attempted, a negative status
becoming a DriverError and a non-negative one success. -/
theorem set_all_config_window_guard (w : Widget) (d d2 : Widget → Int) :
    (w.widgetType ≠ WidgetType.Window →
      set_all_config w d = Except.error Error.TypeMismatch ∧
      set_all_config w d = set_all_config w d2) ∧
    (w.widgetType = WidgetType.Window → d w < 0 →
      set_all_config w d = Except.error (Error.DriverError (d w))) ∧
    (w.widgetType = WidgetType.Window → 0 ≤ d w →
      set_all_config w d = Except.ok ()) := by
  refine ⟨fun hne => ?_, fun hw hneg => ?_, fun hw hpos => ?_⟩
  · simp [set_all_config, hne]
  · simp [set_all_config, hw, try_gp, hneg]
  · have hn : ¬ d w < 0 := not_lt.mpr hpos
    simp [set_all_config, hw, try_gp, hn]

/-- C2 witness: a concrete Text-kind root is rejected with TypeMismatch
regardless of the driver. -/
theorem set_all_config_window_guard_witness :
    set_all_config { name := [97], widgetType := WidgetType.Text } (fun _ => 0) =
      Except.error Error.TypeMismatch :=
  ((set_all_config_window_guard { name := [97], widgetType := WidgetType.Text }
    (fun _ => 0) (fun _ => -1)).1 (by decide)).1

/-- C6: set_config writes to the device under the name stored in the
node itself — the driver is consulted only at the key equal to the
node's own name field (the result depends on the driver only through
that key), success and failure following the status at that key. -/
theorem set_config_targets_node_name (w : Widget) (d1 d2 : List Nat → Int) :
    (d1 w.name = d2 w.name → set_config w d1 = set_config w d2) ∧
    (d1 w.name < 0 → set_config w d1 = Except.error (Error.DriverError (d1 w.name))) ∧
    (0 ≤ d1 w.name → set_config w d1 = Except.ok ()) := by
  refine ⟨fun heq => ?_, fun hneg => ?_, fun hpos => ?_⟩
  · simp [set_config, heq]
  · simp [set_config, try_gp, hneg]
  · have hn : ¬ d1 w.name < 0 := not_lt.mpr hpos
    simp [set_config, try_gp, hn]

/-- C6 witness: a concrete write under the node's own name succeeds when
the driver accepts that key. -/
theorem set_config_targets_node_name_witness :
    set_config { name := [107], widgetType := WidgetType.Text } (fun _ => 0) =
      Except.ok () :=
  (set_config_targets_node_name { name := [107], widgetType := WidgetType.Text }
    (fun _ => 0) (fun _ => 0)).2.2 (by decide)

/-- C7: hooking the log translation is idempotent — any positive number
of hook_gp_log calls equals exactly one call — and from process start the
driver's add-log-function entry point is invoked at most once however
many times hook_gp_log runs (exactly once after the first call). -/
theorem hook_gp_log_exactly_once (s : ProcessLogState) (n : Nat) (h : 1 ≤ n) :
    hook_gp_log^[n] s = hook_gp_log s ∧
    (hook_gp_log^[n] processStart).gpLogAddFuncCalls = 1 ∧
    (∀ m : Nat, (hook_gp_log^[m] processStart).gpLogAddFuncCalls ≤ 1) := by
  have hfix : ∀ t : ProcessLogState, hook_gp_log (hook_gp_log t) = hook_gp_log t := by
    intro t
    by_cases ht : t.hooked <;> simp [hook_gp_log, ht]
  have hiter : ∀ (m : Nat) (t : ProcessLogState), hook_gp_log^[m + 1] t = hook_gp_log t := by
    intro m t
    rw [Function.iterate_succ_apply]
    exact Function.iterate_fixed (hfix t) m
  obtain ⟨m, rfl⟩ : ∃ m, n = m + 1 := ⟨n - 1, by omega⟩
  refine ⟨hiter m s, ?_, ?_⟩
  · rw [hiter m processStart]
    simp [hook_gp_log, processStart]
  · intro k
    cases k with
    | zero => simp [processStart]
    | succ k2 =>
      rw [hiter k2 processStart]
      simp [hook_gp_log, processStart]

/-- C7 witness: three hook calls from process start equal a single one. -/
theorem hook_gp_log_exactly_once_witness :
    hook_gp_log^[3] processStart = hook_gp_log processStart :=
  (hook_gp_log_exactly_once processStart 3 (by decide)).1

/-- C8: libtool_lock yields the guard for both outcomes of acquiring the
process-wide mutex — the normal one and the poisoned one, whose guard is
recovered rather than the poison being propagated or a panic raised. -/
theorem libtool_lock_yields_guard {α : Type} (g : α) (e : PoisonError α) :
    libtool_lock (LockResult.ok g) = g ∧
    libtool_lock (LockResult.poisoned e) = e.inner :=
  ⟨rfl, rfl⟩

/-- C9: the installed log callback forwards GP_LOG_ERROR at Error,
GP_LOG_DEBUG at Debug and GP_LOG_VERBOSE at Info, with the message
forwarded and the domain prefixed into the target; every severity other
than GP_LOG_DATA reaches a non-panicking branch (the embedding is some),
GP_LOG_DATA alone hitting the unreachable branch (none). -/
theorem log_function_severity_map (domain message : List Nat) :
    log_function GPLogLevel.GP_LOG_ERROR domain message =
      some (LogLevel.Error, "gphoto2::".toList ++ chars_to_string domain,
        chars_to_string message) ∧
    log_function GPLogLevel.GP_LOG_DEBUG domain message =
      some (LogLevel.Debug, "gphoto2::".toList ++ chars_to_string domain,
        chars_to_string message) ∧
    log_function GPLogLevel.GP_LOG_VERBOSE domain message =
      some (LogLevel.Info, "gphoto2::".toList ++ chars_to_string domain,
        chars_to_string message) ∧
    (∀ level : GPLogLevel, level ≠ GPLogLevel.GP_LOG_DATA →
      (log_function level domain message).isSome = true) ∧
    log_function GPLogLevel.GP_LOG_DATA domain message = none := by
  refine ⟨rfl, rfl, rfl, fun level hlevel => ?_, rfl⟩
  cases level <;> simp_all [log_function]

/-- C9 witness: the error severity is forwarded (non-panicking branch)
for a concrete domain and message. -/
theorem log_function_severity_map_witness :
    (log_function GPLogLevel.GP_LOG_ERROR [100] [109]).isSome = true :=
  (log_function_severity_map [100] [109]).2.2.2.1 GPLogLevel.GP_LOG_ERROR (by decide)

/-- C10: up to i32::MAX whole milliseconds the duration is passed to the
driver exactly (sub-millisecond remainder truncated by as_millis); in
general the argument is congruent to the millisecond count modulo 2^32
and lies in the signed 32-bit range, so a larger duration is passed as a
different value, which can be negative. -/
theorem wait_event_millis_cast (secs nanos : Nat) (hn : nanos < 1000000000) :
    (duration_as_millis secs nanos ≤ 2147483647 →
      wait_event_timeout_millis secs nanos = duration_as_millis secs nanos) ∧
    Int.ModEq 4294967296 (wait_event_timeout_millis secs nanos)
      (duration_as_millis secs nanos) ∧
    -2147483648 ≤ wait_event_timeout_millis secs nanos ∧
    wait_event_timeout_millis secs nanos < 2147483648 ∧
    (2147483647 < duration_as_millis secs nanos →
      wait_event_timeout_millis secs nanos ≠ (duration_as_millis secs nanos : Int)) ∧
    (∃ s2 n2 : Nat, n2 < 1000000000 ∧ wait_event_timeout_millis s2 n2 < 0) := by
  refine ⟨?_, ?_, ?_, ?_, ?_, ⟨2147483, 648000000, by norm_num, by decide⟩⟩ <;>
    simp only [wait_event_timeout_millis, u128_as_i32, duration_as_millis, Int.ModEq] <;>
    split_ifs <;> omega

/-- C10 witness: a 2.0005-second duration is passed as exactly 2000
milliseconds. -/
theorem wait_event_millis_cast_witness : wait_event_timeout_millis 2 500000 = 2000 := by
  rw [(wait_event_millis_cast 2 500000 (by norm_num)).1 (by norm_num [duration_as_millis])]
  decide

/-- Decoding a two-byte sequence encoding the scalar value n. -/
theorem utf8Lossy_enc2 (n : Nat) (h1 : 0x80 ≤ n) (h2 : n < 0x800) (l : List Nat) :
    utf8Lossy ((0xC0 + n / 0x40) :: (0x80 + n % 0x40) :: l) = Char.ofNat n :: utf8Lossy l := by
  have hb1 : ¬ (0xC0 + n / 0x40) < 0x80 := by omega
  have hb2 : ¬ (0xC0 + n / 0x40) < 0xC2 := by omega
  have hb3 : (0xC0 + n / 0x40) ≤ 0xDF := by omega
  have hc : isCont (0x80 + n % 0x40) = true := by
    simp only [isCont, Bool.and_eq_true, decide_eq_true_eq]
    omega
  have harg : (0xC0 + n / 0x40 - 0xC0) * 0x40 + (0x80 + n % 0x40 - 0x80) = n := by omega
  rw [utf8Lossy.eq_def]
  simp only [hb1, hb2, hb3, hc, if_false, if_true, ite_true, ite_false, harg]

/-- Decoding a three-byte sequence encoding the non-surrogate scalar
value n. -/
theorem utf8Lossy_enc3 (n : Nat) (h1 : 0x800 ≤ n) (h2 : n < 0x10000)
    (hs : n < 0xD800 ∨ 0xDFFF < n) (l : List Nat) :
    utf8Lossy ((0xE0 + n / 0x1000) :: (0x80 + n / 0x40 % 0x40) :: (0x80 + n % 0x40) :: l) =
      Char.ofNat n :: utf8Lossy l := by
  have hb1 : ¬ (0xE0 + n / 0x1000) < 0x80 := by omega
  have hb2 : ¬ (0xE0 + n / 0x1000) < 0xC2 := by omega
  have hb3 : ¬ (0xE0 + n / 0x1000) ≤ 0xDF := by omega
  have hb4 : (0xE0 + n / 0x1000) ≤ 0xEF := by omega
  have hok : utf8SecondOk3 (0xE0 + n / 0x1000) (0x80 + n / 0x40 % 0x40) = true := by
    unfold utf8SecondOk3 isCont
    split_ifs <;> (simp only [Bool.and_eq_true, decide_eq_true_eq]; omega)
  have hc : isCont (0x80 + n % 0x40) = true := by
    simp only [isCont, Bool.and_eq_true, decide_eq_true_eq]
    omega
  have harg : ((0xE0 + n / 0x1000 - 0xE0) * 0x40 + (0x80 + n / 0x40 % 0x40 - 0x80)) * 0x40 +
      (0x80 + n % 0x40 - 0x80) = n := by omega
  rw [utf8Lossy.eq_def]
  simp only [hb1, hb2, hb3, hb4, hok, hc, if_false, if_true, ite_true, ite_false, harg]

/-- Decoding a four-byte sequence encoding the scalar value n. -/
theorem utf8Lossy_enc4 (n : Nat) (h1 : 0x10000 ≤ n) (h2 : n < 0x110000) (l : List Nat) :
    utf8Lossy ((0xF0 + n / 0x40000) :: (0x80 + n / 0x1000 % 0x40) ::
      (0x80 + n / 0x40 % 0x40) :: (0x80 + n % 0x40) :: l) = Char.ofNat n :: utf8Lossy l := by
  have hb1 : ¬ (0xF0 + n / 0x40000) < 0x80 := by omega
  have hb2 : ¬ (0xF0 + n / 0x40000) < 0xC2 := by omega
  have hb3 : ¬ (0xF0 + n / 0x40000) ≤ 0xDF := by omega
  have hb4 : ¬ (0xF0 + n / 0x40000) ≤ 0xEF := by omega
  have hb5 : (0xF0 + n / 0x40000) ≤ 0xF4 := by omega
  have hok : utf8SecondOk4 (0xF0 + n / 0x40000) (0x80 + n / 0x1000 % 0x40) = true := by
    unfold utf8SecondOk4 isCont
    split_ifs <;> (simp only [Bool.and_eq_true, decide_eq_true_eq]; omega)
  have hc2 : isCont (0x80 + n / 0x40 % 0x40) = true := by
    simp only [isCont, Bool.and_eq_true, decide_eq_true_eq]
    omega
  have hc3 : isCont (0x80 + n % 0x40) = true := by
    simp only [isCont, Bool.and_eq_true, decide_eq_true_eq]
    omega
  have harg : (((0xF0 + n / 0x40000 - 0xF0) * 0x40 + (0x80 + n / 0x1000 % 0x40 - 0x80)) * 0x40 +
      (0x80 + n / 0x40 % 0x40 - 0x80)) * 0x40 + (0x80 + n % 0x40 - 0x80) = n := by omega
  rw [utf8Lossy.eq_def]
  simp only [hb1, hb2, hb3, hb4, hb5, hok, hc2, hc3, if_false, if_true, ite_true,
    ite_false, harg]

/-- Decoding the encoding of one character prepended to any byte tail
yields that character followed by the decode of the tail. -/
theorem utf8Lossy_encodeChar (c : Char) (l : List Nat) :
    utf8Lossy (encodeChar c ++ l) = c :: utf8Lossy l := by
  have hval : c.toNat < 0xD800 ∨ (0xDFFF < c.toNat ∧ c.toNat < 0x110000) := by
    have h := c.valid
    unfold UInt32.isValidChar at h
    rcases h with h | ⟨ha, hb⟩
    · left
      exact_mod_cast h
    · right
      exact ⟨by exact_mod_cast ha, by exact_mod_cast hb⟩
  by_cases h1 : c.toNat < 0x80
  · simp only [encodeChar, if_pos h1, List.cons_append, List.nil_append]
    rw [utf8Lossy.eq_def]
    simp only [if_pos h1, Char.ofNat_toNat]
  · by_cases h2 : c.toNat < 0x800
    · simp only [encodeChar, if_neg h1, if_pos h2, List.cons_append, List.nil_append]
      rw [utf8Lossy_enc2 c.toNat (by omega) h2 l, Char.ofNat_toNat]
    · by_cases h3 : c.toNat < 0x10000
      · simp only [encodeChar, if_neg h1, if_neg h2, if_pos h3, List.cons_append,
          List.nil_append]
        have hs : c.toNat < 0xD800 ∨ 0xDFFF < c.toNat := by
          rcases hval with h | ⟨ha, _⟩
          · exact Or.inl h
          · exact Or.inr ha
        rw [utf8Lossy_enc3 c.toNat (by omega) h3 hs l, Char.ofNat_toNat]
      · simp only [encodeChar, if_neg h1, if_neg h2, if_neg h3, List.cons_append,
          List.nil_append]
        have hlt : c.toNat < 0x110000 := by
          rcases hval with h | ⟨_, hb⟩
          · omega
          · exact hb
        rw [utf8Lossy_enc4 c.toNat (by omega) hlt l, Char.ofNat_toNat]

/-- The lossy decode is exact on valid UTF-8: it inverts the encoder, so
valid sequences are never altered and gain no replacement character. -/
theorem utf8Lossy_utf8Encode (cs : List Char) : utf8Lossy (utf8Encode cs) = cs := by
  induction cs with
  | nil => rfl
  | cons c cs ih =>
    show utf8Lossy (encodeChar c ++ utf8Encode cs) = c :: cs
    rw [utf8Lossy_encodeChar, ih]

set_option maxHeartbeats 2000000 in
/-- Invalid UTF-8 input never fails the lossy decode: it yields a string
in which the replacement character stands for the invalid sequence. -/
theorem utf8Decode_none_mem (l : List Nat) : utf8Decode l = none → repl ∈ utf8Lossy l := by
  induction l using utf8Decode.induct <;>
    (intro h
     rw [utf8Decode.eq_def] at h
     rw [utf8Lossy.eq_def]
     simp_all only [List.mem_cons, List.mem_singleton, Option.map_eq_none', ite_true,
       ite_false, eq_self_iff_true, true_or, or_true, not_false_eq_true, and_true, true_and,
       Bool.false_eq_true]
     try exact Option.noConfusion h)

/-- C5: with a success status, summary, about and manual return Ok of the
lenient decode of the driver's NUL-terminated byte buffer for every byte
sequence — invalid bytes never turn the call into an error; the decode is
exact on valid UTF-8 (it inverts the encoder) and substitutes the
replacement placeholder into the result on every invalid byte
sequence. -/
theorem summary_lenient_utf8 (status : Int) (text : List Nat) (h : 0 ≤ status) :
    summary status text = Except.ok (utf8Lossy (text.takeWhile (fun b => b != 0))) ∧
    about status text = Except.ok (utf8Lossy (text.takeWhile (fun b => b != 0))) ∧
    manual status text = Except.ok (utf8Lossy (text.takeWhile (fun b => b != 0))) ∧
    (∀ cs : List Char, utf8Lossy (utf8Encode cs) = cs) ∧
    (∀ l : List Nat, utf8Decode l = none → repl ∈ utf8Lossy l) := by
  have hn : ¬ status < 0 := not_lt.mpr h
  refine ⟨?_, ?_, ?_, utf8Lossy_utf8Encode, utf8Decode_none_mem⟩ <;>
    simp [summary, about, manual, try_gp, hn, camera_text_to_str, char_slice_to_cow]

/-- C5 witness: a concrete buffer with an invalid byte and a NUL
terminator decodes to Ok with the replacement placeholder, not an
error. -/
theorem summary_lenient_utf8_witness :
    summary 0 [65, 255, 0, 66] = Except.ok [Char.ofNat 65, repl] := by
  rw [(summary_lenient_utf8 0 [65, 255, 0, 66] (by decide)).1]
  exact congrArg Except.ok (by decide)

end Gphoto2
